import Mathlib

/-!
A shallow embedding of `nltk/corpus/util.py` — the `LazyCorpusLoader` lazy
proxy that TextBlob bundles from NLTK.

Modelling decisions, all taken from the source:

* The external collaborators are abstracted exactly as the code uses them:
  `nltk.data.find` becomes `Env.find : String → Except PyErr String`
  (success yields the resolved root, failure the raised exception), and the
  reader class becomes `ReaderCls`, whose `build` field models
  `reader_cls(root, *args, **kwargs)` and whose `isCorpusReader` field models
  `issubclass(reader_cls, CorpusReader)`.
* A loaded corpus object is a `Delegate`: an attribute table
  `String → Option V`; a miss raises `AttributeError`, as Python attribute
  lookup does.
* The proxy mutates itself in place (`self.__dict__` / `self.__class__`
  reassignment); the embedding threads the handle state explicitly instead:
  every operation returns the updated `LazyCorpusLoader` value.  The spec
  state `Failed` has no stored representation in the code — a failed load
  leaves the object exactly as it was (still the lazy class) — so the state
  type has only `unloaded` and `loaded`.
* Calls into the collaborators are instrumented by a `Trace` so that
  "exactly one Constructor call with these arguments" is a statement about
  the returned trace.
* `re.sub(r'(([^/]*)(/.*)?)', r'\2.zip/\1/', name)` is modelled by
  `zipName`.  Under the Python 2 `re.sub` semantics this code was written
  for (pre-3.7: the empty match right after a non-empty match is skipped),
  the pattern matches the whole identifier once — group 2 is the maximal
  `'/'`-free first segment, group 1 the whole identifier — provided the
  identifier contains no newline (corpus identifiers never do; `.` does not
  match a newline).
-/

set_option autoImplicit false

namespace LazyCorpus

/-- Python exception values that can cross the `LazyCorpusLoader` interface:
`LookupError` from `nltk.data.find`, `AttributeError` from attribute lookup,
`AssertionError` from the `issubclass` check in `__init__`, and any other
exception a collaborator may raise. -/
inductive PyErr where
  | lookupError (msg : String)
  | attributeError (attr : String)
  | assertionError
  | otherError (msg : String)
deriving DecidableEq, Repr

/-- `except LookupError` matches exactly the `lookupError` variant. -/
def PyErr.isLookupError : PyErr → Bool
  | .lookupError _ => true
  | _ => false

/-- A constructed corpus object: its capability surface, as the proxy sees
it, is attribute lookup by name (`V` is the type of attribute values). -/
structure Delegate (V : Type) where
  attrs : String → Option V

/-- `getattr(corpus, attr)`: the value when the delegate has the attribute,
`AttributeError` otherwise. -/
def Delegate.getattr {V : Type} (d : Delegate V) (attr : String) : Except PyErr V :=
  match d.attrs attr with
  | some v => Except.ok v
  | none => Except.error (PyErr.attributeError attr)

/-- The `reader_cls` collaborator: `isCorpusReader` models
`issubclass(reader_cls, CorpusReader)`; `build root args kwargs` models
`reader_cls(root, *args, **kwargs)`, which either returns a corpus object or
raises. -/
structure ReaderCls (V : Type) where
  isCorpusReader : Bool
  build : String → List V → List (String × V) → Except PyErr (Delegate V)

/-- The Locator collaborator: `find path` models `nltk.data.find(path)`,
which returns a resolved root or raises (a `LookupError` when the resource
is missing). -/
structure Env (V : Type) where
  find : String → Except PyErr String

/-- Whether the proxy still is a `LazyCorpusLoader` (unloaded) or has
transformed itself into the corpus object (loaded, holding the delegate). -/
inductive HandleState (V : Type) where
  | unloaded
  | loaded (d : Delegate V)

/-- The proxy.  `name`, `readerCls`, `args`, `kwargs` are the values stored
by `__init__` (and, once loaded, captured by the `_unload` closure);
`state` is the explicit rendering of the `__class__`/`__dict__` swap. -/
structure LazyCorpusLoader (V : Type) where
  name : String
  readerCls : ReaderCls V
  args : List V
  kwargs : List (String × V)
  state : HandleState V

/-- The calls an operation made into the collaborators, in order:
each Locator call records the candidate path given to `find`; each
Constructor call records the root, positional args and keyword args given
to `reader_cls`. -/
structure Trace (V : Type) where
  locatorCalls : List String
  constructorCalls : List (String × List V × List (String × V))
deriving DecidableEq

/-- The trace of an operation that called no collaborator. -/
def Trace.empty {V : Type} : Trace V := ⟨[], []⟩

/-- The module constant `TRY_ZIPFILE_FIRST = False`. -/
def TRY_ZIPFILE_FIRST : Bool := false

/-- Splits a character list at the first `'/'`: the first component is the
maximal `'/'`-free first segment (regex group 2), the second the rest of the
identifier starting at that `'/'` (regex group 3, or empty). -/
def splitFirstSegment : List Char → List Char × List Char
  | [] => ([], [])
  | c :: cs =>
    if c = '/' then ([], c :: cs)
    else
      let p := splitFirstSegment cs
      (c :: p.1, p.2)

/-- `zip_name = re.sub(r'(([^/]*)(/.*)?)', r'\2.zip/\1/', self.__name)`:
the replacement `\2.zip/\1/` is first-segment ++ ".zip/" ++ whole-identifier
++ "/" (see the module comment for the `re.sub` semantics modelled). -/
def zipName (name : String) : String :=
  let p := splitFirstSegment name.data
  String.mk p.1 ++ ".zip/" ++ String.mk (p.1 ++ p.2) ++ "/"

/-- The root-resolution part of `LazyCorpusLoader.__load`, together with the
list of candidate paths passed to `nltk.data.find`, in order.

```
zip_name = re.sub(...)
if TRY_ZIPFILE_FIRST:
    try:
        root = nltk.data.find('corpora/%s' % zip_name)
    except LookupError:
        raise
        root = nltk.data.find('corpora/%s' % self.__name)   # dead code
else:
    try:
        root = nltk.data.find('corpora/%s' % self.__name)
    except LookupError as e:
        try: root = nltk.data.find('corpora/%s' % zip_name)
        except LookupError: raise e
```

In the zipfile-first branch the bare `raise` re-raises whatever `find`
raised (the statement after it is unreachable), so any failure propagates
unchanged; no `isLookupError` test is needed to model it.  In the default
branch only a `LookupError` from the primary lookup is caught, and only a
`LookupError` from the archive lookup makes it re-raise the primary error
`e`; any other exception propagates by itself. -/
def locateRoot {V : Type} (env : Env V) (tryZipfileFirst : Bool) (name : String) :
    Except PyErr String × List String :=
  let primary := "corpora/" ++ name
  let archive := "corpora/" ++ zipName name
  if tryZipfileFirst then
    match env.find archive with
    | Except.ok root => (Except.ok root, [archive])
    | Except.error e => (Except.error e, [archive])
  else
    match env.find primary with
    | Except.ok root => (Except.ok root, [primary])
    | Except.error e =>
      if e.isLookupError then
        match env.find archive with
        | Except.ok root => (Except.ok root, [primary, archive])
        | Except.error e2 =>
          if e2.isLookupError then (Except.error e, [primary, archive])
          else (Except.error e2, [primary, archive])
      else (Except.error e, [primary])

/-- `LazyCorpusLoader.__load` up to the self-transformation: resolve the
root, then `corpus = self.__reader_cls(root, *self.__args, **self.__kwargs)`.
Returns the constructed delegate (or the propagated error) and the trace of
collaborator calls. -/
def LazyCorpusLoader.loadDelegate {V : Type} (env : Env V) (tryZipfileFirst : Bool)
    (h : LazyCorpusLoader V) : Except PyErr (Delegate V) × Trace V :=
  match locateRoot env tryZipfileFirst h.name with
  | (Except.error e, calls) => (Except.error e, ⟨calls, []⟩)
  | (Except.ok root, calls) =>
    match h.readerCls.build root h.args h.kwargs with
    | Except.error e => (Except.error e, ⟨calls, [(root, h.args, h.kwargs)]⟩)
    | Except.ok d => (Except.ok d, ⟨calls, [(root, h.args, h.kwargs)]⟩)

/-- `LazyCorpusLoader.__load` including the self-transformation: on success
the handle has become the corpus (`self.__dict__ = corpus.__dict__;
self.__class__ = corpus.__class__`); on failure the handle is untouched and
the error propagates. -/
def LazyCorpusLoader.load {V : Type} (env : Env V) (tryZipfileFirst : Bool)
    (h : LazyCorpusLoader V) : Except PyErr (LazyCorpusLoader V) × Trace V :=
  match h.loadDelegate env tryZipfileFirst with
  | (Except.error e, t) => (Except.error e, t)
  | (Except.ok d, t) => (Except.ok { h with state := HandleState.loaded d }, t)

/-- `getattr(handle, attr)`, the capability access of the spec.

While loaded the proxy has become the corpus object, so lookup goes straight
to the delegate.  While unloaded, Python falls into
`LazyCorpusLoader.__getattr__`:

```
def __getattr__(self, attr):
    if attr == '__bases__':
        raise AttributeError("LazyCorpusLoader object has no attribute ...")
    self.__load()
    return getattr(self, attr)
```

so `__bases__` raises immediately without loading, and every other name
triggers `__load` and is then looked up on the now-transformed self.
Returns (result, updated handle, trace). -/
def LazyCorpusLoader.getattr {V : Type} (env : Env V) (tryZipfileFirst : Bool)
    (h : LazyCorpusLoader V) (attr : String) :
    Except PyErr V × LazyCorpusLoader V × Trace V :=
  match h.state with
  | HandleState.loaded d => (d.getattr attr, h, Trace.empty)
  | HandleState.unloaded =>
    if attr = "__bases__" then
      (Except.error (PyErr.attributeError "__bases__"), h, Trace.empty)
    else
      match h.loadDelegate env tryZipfileFirst with
      | (Except.error e, t) => (Except.error e, h, t)
      | (Except.ok d, t) =>
        ((Delegate.getattr d attr), { h with state := HandleState.loaded d }, t)

/-- `handle._unload()`.  On a loaded handle this is the closure installed by
`__load`, which builds `LazyCorpusLoader(name, reader_cls, *args, **kwargs)`
afresh and swaps the handle back to it (same stored parameters, unloaded
state); on a never-loaded handle it is the class-level `_unload`, whose body
is `pass`.  Neither calls a collaborator. -/
def LazyCorpusLoader.unload {V : Type} (h : LazyCorpusLoader V) :
    LazyCorpusLoader V × Trace V :=
  match h.state with
  | HandleState.loaded _ =>
    ({ name := h.name, readerCls := h.readerCls, args := h.args,
       kwargs := h.kwargs, state := HandleState.unloaded }, Trace.empty)
  | HandleState.unloaded => (h, Trace.empty)

/-- `LazyCorpusLoader.__init__(name, reader_cls, *args, **kwargs)`:

```
assert issubclass(reader_cls, CorpusReader)
self.__name = self.__name__ = name
self.__reader_cls = reader_cls
self.__args = args
self.__kwargs = kwargs
```

The assertion runs before any field is stored, so a failing check raises
`AssertionError` and no handle exists; otherwise the handle stores the
parameters verbatim and starts unloaded. -/
def LazyCorpusLoader.init {V : Type} (name : String) (readerCls : ReaderCls V)
    (args : List V) (kwargs : List (String × V)) :
    Except PyErr (LazyCorpusLoader V) :=
  if readerCls.isCorpusReader then
    Except.ok ⟨name, readerCls, args, kwargs, HandleState.unloaded⟩
  else
    Except.error PyErr.assertionError

/-!  General lemmas about the embedding, shared by the claim theorems. -/

/-- Unloaded handle, non-protected attribute, root found, construction
succeeds: the access performs exactly the recorded locator calls plus one
constructor call with the stored parameters, transforms the handle into the
loaded state, and answers from the fresh delegate. -/
theorem getattr_unloaded_ok {V : Type} {env : Env V} {tz : Bool}
    {h : LazyCorpusLoader V} {attr root : String} {calls : List String} {d : Delegate V}
    (hs : h.state = HandleState.unloaded) (ha : attr ≠ "__bases__")
    (hl : locateRoot env tz h.name = (Except.ok root, calls))
    (hb : h.readerCls.build root h.args h.kwargs = Except.ok d) :
    h.getattr env tz attr =
      (d.getattr attr, { h with state := HandleState.loaded d },
        ⟨calls, [(root, h.args, h.kwargs)]⟩) := by
  simp only [LazyCorpusLoader.getattr, LazyCorpusLoader.loadDelegate, hs, if_neg ha, hl, hb]

/-- Unloaded handle, non-protected attribute, both-candidate resolution
fails: the access propagates the resolution error unmodified, leaves the
handle untouched, and performs no constructor call. -/
theorem getattr_unloaded_locate_error {V : Type} {env : Env V} {tz : Bool}
    {h : LazyCorpusLoader V} {attr : String} {e : PyErr} {calls : List String}
    (hs : h.state = HandleState.unloaded) (ha : attr ≠ "__bases__")
    (hl : locateRoot env tz h.name = (Except.error e, calls)) :
    h.getattr env tz attr = (Except.error e, h, ⟨calls, []⟩) := by
  simp only [LazyCorpusLoader.getattr, LazyCorpusLoader.loadDelegate, hs, if_neg ha, hl]

/-- Unloaded handle, non-protected attribute, root found but the constructor
raises: the access propagates the constructor error unmodified, leaves the
handle untouched, and records the single failed constructor call. -/
theorem getattr_unloaded_build_error {V : Type} {env : Env V} {tz : Bool}
    {h : LazyCorpusLoader V} {attr root : String} {calls : List String} {e : PyErr}
    (hs : h.state = HandleState.unloaded) (ha : attr ≠ "__bases__")
    (hl : locateRoot env tz h.name = (Except.ok root, calls))
    (hb : h.readerCls.build root h.args h.kwargs = Except.error e) :
    h.getattr env tz attr = (Except.error e, h, ⟨calls, [(root, h.args, h.kwargs)]⟩) := by
  simp only [LazyCorpusLoader.getattr, LazyCorpusLoader.loadDelegate, hs, if_neg ha, hl, hb]

/-- Loaded handle: any access is answered by the delegate, changes nothing
and calls no collaborator. -/
theorem getattr_loaded {V : Type} {env : Env V} {tz : Bool}
    {h : LazyCorpusLoader V} {d : Delegate V} (attr : String)
    (hs : h.state = HandleState.loaded d) :
    h.getattr env tz attr = (d.getattr attr, h, Trace.empty) := by
  simp only [LazyCorpusLoader.getattr, hs]

/-- `splitFirstSegment` is a span: the two components rebuild the input. -/
theorem splitFirstSegment_append (l : List Char) :
    (splitFirstSegment l).1 ++ (splitFirstSegment l).2 = l := by
  induction l with
  | nil => rfl
  | cons c cs ih =>
    simp only [splitFirstSegment]
    by_cases hc : c = '/'
    · simp [hc]
    · simp [hc, ih]

/-- The first component of `splitFirstSegment` is the maximal `'/'`-free
first segment of the input. -/
theorem splitFirstSegment_fst (l : List Char) :
    (splitFirstSegment l).1 = l.takeWhile (fun c => c ≠ '/') := by
  induction l with
  | nil => rfl
  | cons c cs ih =>
    simp only [splitFirstSegment, List.takeWhile]
    by_cases hc : c = '/'
    · simp [hc]
    · simp [hc, ih]

/-- The identifier's first path segment: the maximal prefix containing no
path separator. -/
def firstSegment (name : String) : String :=
  String.mk (name.data.takeWhile (fun c => c ≠ '/'))

/-- Closed form of the code's archive-candidate derivation: first segment,
then `".zip/"`, then the ENTIRE identifier, then `"/"`. -/
theorem zipName_eq (name : String) :
    zipName name = firstSegment name ++ ".zip/" ++ name ++ "/" := by
  simp only [zipName, firstSegment]
  rw [splitFirstSegment_append, splitFirstSegment_fst]

/-- The archive candidate is strictly longer than the identifier, so the
two candidate paths given to the Locator are always distinct. -/
theorem zipName_ne (name : String) : zipName name ≠ name := by
  intro hEq
  have hlen := congrArg String.length hEq
  rw [zipName_eq] at hlen
  simp only [String.length_append] at hlen
  have h5 : (".zip/" : String).length = 5 := rfl
  have h1 : ("/" : String).length = 1 := rfl
  omega

/-- Modelled from the claim wording of the archive derivation: "taking the
identifier's first path segment, appending the archive-container suffix
(.zip) to it, and nesting the remaining path inside that container", the
remaining path being the identifier with its first segment removed. -/
def archiveCandidateClaim (name : String) : String :=
  firstSegment name ++ ".zip" ++
    String.mk (name.data.drop (firstSegment name).data.length)

/-- Modelled from the spec: an identifier is protected metadata when
accessing it on any unloaded handle fails immediately with an attribute
lookup error, leaves the handle unchanged (so no load is triggered), and
performs zero Locator and zero Constructor calls. -/
def ProtectedIdentifier (attr : String) : Prop :=
  ∀ (V : Type) (env : Env V) (tz : Bool) (h : LazyCorpusLoader V),
    h.state = HandleState.unloaded →
      (∃ a, (h.getattr env tz attr).1 = Except.error (PyErr.attributeError a)) ∧
      (h.getattr env tz attr).2.1 = h ∧
      (h.getattr env tz attr).2.2 = Trace.empty

/-!  Concrete fixtures used by the witnesses and the probe arguments of
uniqueness proofs. -/

/-- A reader class whose corpus exposes one capability, `"items"`, whose
value depends on the root and the construction arguments. -/
def probeCls : ReaderCls Nat :=
  ⟨true, fun root args kwargs =>
    Except.ok ⟨fun a =>
      if a = "items" then some (root.length + args.length + kwargs.length) else none⟩⟩

/-- A Locator that resolves only the primary candidate of
`"sample-corpus"`. -/
def probeEnv : Env Nat :=
  ⟨fun p => if p = "corpora/sample-corpus" then Except.ok "ROOT"
            else Except.error (PyErr.lookupError p)⟩

/-- An unloaded handle for `"sample-corpus"` with nonempty args/kwargs. -/
def probeHandle : LazyCorpusLoader Nat :=
  ⟨"sample-corpus", probeCls, [1, 2], [("k", 3)], HandleState.unloaded⟩

/-- A Locator in which every lookup fails with `LookupError`. -/
def noneEnv : Env Nat :=
  ⟨fun p => Except.error (PyErr.lookupError p)⟩

/-- A Locator that resolves only the archive candidate of
`"sample-corpus"`. -/
def zipEnv : Env Nat :=
  ⟨fun p => if p = "corpora/sample-corpus.zip/sample-corpus/" then Except.ok "ZROOT"
            else Except.error (PyErr.lookupError p)⟩

/-- A reader class whose construction raises on the root `"BADROOT"` and
succeeds on any other root. -/
def flakyCls : ReaderCls Nat :=
  ⟨true, fun root args _ =>
    if root = "BADROOT" then Except.error (PyErr.otherError "construction failed")
    else Except.ok ⟨fun a => if a = "items" then some args.length else none⟩⟩

/-- An unloaded handle over `flakyCls`. -/
def flakyHandle : LazyCorpusLoader Nat :=
  ⟨"sample-corpus", flakyCls, [5], [], HandleState.unloaded⟩

/-- A Locator that resolves the primary candidate of `"sample-corpus"` to
the root that makes `flakyCls` raise. -/
def badRootEnv : Env Nat :=
  ⟨fun p => if p = "corpora/sample-corpus" then Except.ok "BADROOT"
            else Except.error (PyErr.lookupError p)⟩

/-- The delegate that `probeCls.build "ROOT" [1, 2] [("k", 3)]` yields. -/
def probeDelegate : Delegate Nat :=
  ⟨fun a => if a = "items" then some 7 else none⟩

/-- `probeHandle` after a successful load of `probeDelegate`. -/
def probeLoadedHandle : LazyCorpusLoader Nat :=
  { probeHandle with state := HandleState.loaded probeDelegate }

/-- A reader reference that is not a `CorpusReader` subclass. -/
def notCorpusCls : ReaderCls Nat :=
  ⟨false, fun _ _ _ => Except.error (PyErr.otherError "unused")⟩

/-- If the load attempt inside an access fails, the handle comes back
untouched (the `__class__`/`__dict__` swap never ran). -/
theorem getattr_load_failed_handle {V : Type} {env : Env V} {tz : Bool}
    {h : LazyCorpusLoader V} {attr : String} {e : PyErr}
    (hs : h.state = HandleState.unloaded)
    (hfail : (h.loadDelegate env tz).1 = Except.error e) :
    (h.getattr env tz attr).2.1 = h := by
  simp only [LazyCorpusLoader.getattr, hs]
  by_cases hb : attr = "__bases__"
  · simp [hb]
  · simp only [if_neg hb]
    rcases hld : h.loadDelegate env tz with ⟨res, t⟩
    rw [hld] at hfail
    cases res with
    | error e2 => simp
    | ok d => exact absurd hfail (by simp)

/-!  The claim theorems. -/

/-- C1: for every handle and every non-protected capability name, the first
access on an unloaded handle invokes the Constructor exactly once, passing
the stored args/options verbatim; afterwards the handle is loaded with the
constructed delegate, and any number of subsequent accesses perform zero
additional Constructor (and Locator) calls. -/
theorem first_access_invokes_constructor_once {V : Type} (env : Env V) (tz : Bool)
    (h : LazyCorpusLoader V) (attr root : String) (calls : List String) (d : Delegate V)
    (hs : h.state = HandleState.unloaded) (ha : attr ≠ "__bases__")
    (hl : locateRoot env tz h.name = (Except.ok root, calls))
    (hb : h.readerCls.build root h.args h.kwargs = Except.ok d) :
    (h.getattr env tz attr).2.2.constructorCalls = [(root, h.args, h.kwargs)] ∧
    (h.getattr env tz attr).2.1.state = HandleState.loaded d ∧
    ∀ (env2 : Env V) (tz2 : Bool) (attr2 : String),
      ((h.getattr env tz attr).2.1.getattr env2 tz2 attr2).2.2 = Trace.empty := by
  rw [getattr_unloaded_ok hs ha hl hb]
  exact ⟨rfl, rfl, fun env2 tz2 attr2 => by rw [getattr_loaded attr2 rfl]⟩

/-- C1 witness: `probeHandle` in `probeEnv`, accessing `"items"`. -/
theorem first_access_invokes_constructor_once_witness :
    probeHandle.state = HandleState.unloaded ∧
    "items" ≠ "__bases__" ∧
    locateRoot probeEnv false probeHandle.name =
      (Except.ok "ROOT", ["corpora/sample-corpus"]) ∧
    probeHandle.readerCls.build "ROOT" probeHandle.args probeHandle.kwargs =
      Except.ok probeDelegate ∧
    ((probeHandle.getattr probeEnv false "items").2.2.constructorCalls =
        [("ROOT", [1, 2], [("k", 3)])] ∧
      (probeHandle.getattr probeEnv false "items").2.1.state =
        HandleState.loaded probeDelegate ∧
      ∀ (env2 : Env Nat) (tz2 : Bool) (attr2 : String),
        (((probeHandle.getattr probeEnv false "items").2.1.getattr env2 tz2 attr2).2.2 =
          Trace.empty)) :=
  ⟨rfl, by decide, rfl, rfl,
    first_access_invokes_constructor_once probeEnv false probeHandle "items" "ROOT"
      ["corpora/sample-corpus"] probeDelegate rfl (by decide) rfl rfl⟩

/-- C2: while loaded, every capability access is satisfied by the delegate:
any capability present on the delegate is reachable through the handle with
the identical value, every access result equals direct delegate lookup
(including an identical `AttributeError` on a miss), and the access leaves
the handle unchanged with zero collaborator calls. -/
theorem loaded_handle_refines_delegate {V : Type} (env : Env V) (tz : Bool)
    (h : LazyCorpusLoader V) (d : Delegate V)
    (hs : h.state = HandleState.loaded d) :
    ∀ attr : String,
      (h.getattr env tz attr).1 = d.getattr attr ∧
      (∀ v, d.attrs attr = some v → (h.getattr env tz attr).1 = Except.ok v) ∧
      (h.getattr env tz attr).2.1 = h ∧
      (h.getattr env tz attr).2.2 = Trace.empty := by
  intro attr
  rw [getattr_loaded attr hs]
  exact ⟨rfl, fun v hv => by simp [Delegate.getattr, hv], rfl, rfl⟩

/-- C2 witness: the loaded probe handle forwards `"items"` and misses
`"missing"` exactly as the delegate does. -/
theorem loaded_handle_refines_delegate_witness :
    probeLoadedHandle.state = HandleState.loaded probeDelegate ∧
    (∀ attr : String,
      (probeLoadedHandle.getattr probeEnv false attr).1 = probeDelegate.getattr attr ∧
      (∀ v, probeDelegate.attrs attr = some v →
        (probeLoadedHandle.getattr probeEnv false attr).1 = Except.ok v) ∧
      (probeLoadedHandle.getattr probeEnv false attr).2.1 = probeLoadedHandle ∧
      (probeLoadedHandle.getattr probeEnv false attr).2.2 = Trace.empty) ∧
    (probeLoadedHandle.getattr probeEnv false "items").1 = Except.ok 7 ∧
    (probeLoadedHandle.getattr probeEnv false "missing").1 =
      Except.error (PyErr.attributeError "missing") :=
  ⟨rfl, loaded_handle_refines_delegate probeEnv false probeLoadedHandle probeDelegate rfl,
    rfl, rfl⟩

/-- C7: `_unload` on a handle that has never successfully loaded — the
class-level `_unload`, whose body is `pass` — is a guaranteed no-op: it
raises nothing, returns the handle unchanged, and performs zero Locator and
zero Constructor calls; this covers a handle whose load attempt failed,
since a failed load hands the handle back untouched. -/
theorem unload_never_loaded_noop {V : Type} (env : Env V) (tz : Bool)
    (h : LazyCorpusLoader V) (attr : String) (e : PyErr)
    (hs : h.state = HandleState.unloaded) :
    h.unload = (h, Trace.empty) ∧
    ((h.loadDelegate env tz).1 = Except.error e →
      (h.getattr env tz attr).2.1.unload = ((h.getattr env tz attr).2.1, Trace.empty)) := by
  have hnoop : h.unload = (h, Trace.empty) := by
    simp only [LazyCorpusLoader.unload, hs]
  refine ⟨hnoop, fun hfail => ?_⟩
  rw [getattr_load_failed_handle hs hfail, hnoop]

/-- C7 witness: the unloaded probe handle, and the same handle after a load
attempt that failed in `noneEnv`. -/
theorem unload_never_loaded_noop_witness :
    probeHandle.state = HandleState.unloaded ∧
    (probeHandle.unload = (probeHandle, Trace.empty) ∧
      ((probeHandle.loadDelegate noneEnv false).1 =
          Except.error (PyErr.lookupError "corpora/sample-corpus") →
        (probeHandle.getattr noneEnv false "items").2.1.unload =
          ((probeHandle.getattr noneEnv false "items").2.1, Trace.empty))) ∧
    (probeHandle.loadDelegate noneEnv false).1 =
      Except.error (PyErr.lookupError "corpora/sample-corpus") :=
  ⟨rfl, unload_never_loaded_noop noneEnv false probeHandle "items"
      (PyErr.lookupError "corpora/sample-corpus") rfl, rfl⟩

/-- C10: `__init__` checks `issubclass(reader_cls, CorpusReader)` before any
field is stored: a reference that is not a `CorpusReader` subclass makes
construction fail with `AssertionError` and no handle exists, while a
conforming reference yields an unloaded handle holding the parameters
verbatim. -/
theorem init_requires_corpus_reader {V : Type} (name : String)
    (readerCls : ReaderCls V) (args : List V) (kwargs : List (String × V)) :
    (readerCls.isCorpusReader = false →
      LazyCorpusLoader.init name readerCls args kwargs =
        Except.error PyErr.assertionError) ∧
    (readerCls.isCorpusReader = true →
      LazyCorpusLoader.init name readerCls args kwargs =
        Except.ok ⟨name, readerCls, args, kwargs, HandleState.unloaded⟩) := by
  constructor <;> intro hc <;> simp [LazyCorpusLoader.init, hc]

/-- C10 witness: `notCorpusCls` is rejected with `AssertionError`,
`probeCls` is accepted and its parameters are stored verbatim. -/
theorem init_requires_corpus_reader_witness :
    notCorpusCls.isCorpusReader = false ∧
    probeCls.isCorpusReader = true ∧
    LazyCorpusLoader.init "sample-corpus" notCorpusCls [1] [("k", 3)] =
      Except.error PyErr.assertionError ∧
    LazyCorpusLoader.init "sample-corpus" probeCls [1, 2] [("k", 3)] =
      Except.ok ⟨"sample-corpus", probeCls, [1, 2], [("k", 3)], HandleState.unloaded⟩ :=
  ⟨rfl, rfl,
    (init_requires_corpus_reader "sample-corpus" notCorpusCls [1] [("k", 3)]).1 rfl,
    (init_requires_corpus_reader "sample-corpus" probeCls [1, 2] [("k", 3)]).2 rfl⟩

/-- Prepending the same prefix to two strings preserves distinctness. -/
theorem string_append_left_cancel {p a b : String} (hEq : p ++ a = p ++ b) :
    a = b := by
  have hd := congrArg String.data hEq
  simp only [String.data_append] at hd
  exact congrArg String.mk (List.append_cancel_left hd)

/-- Under the default policy the primary candidate is always the first path
given to the Locator. -/
theorem locateRoot_primary_head {V : Type} (env : Env V) (name : String) :
    (locateRoot env false name).2.head? = some ("corpora/" ++ name) := by
  simp only [locateRoot]
  rcases hfp : env.find ("corpora/" ++ name) with e | r
  · by_cases hle : e.isLookupError
    · rcases hfa : env.find ("corpora/" ++ zipName name) with e2 | r2
      · by_cases hle2 : e2.isLookupError <;> simp [hle, hle2]
      · simp [hle]
    · simp [hle]
  · simp

/-- C3: under the default primary-first policy (`TRY_ZIPFILE_FIRST` is
false), the load first looks up the primary candidate; when the primary
lookup succeeds the archive candidate is never tried; the archive candidate
is tried only after the primary lookup fails; and when both lookups fail
with `LookupError`, the error surfaced to the caller is the primary
candidate's, not the archive candidate's. -/
theorem primary_first_policy {V : Type} (env : Env V) (h : LazyCorpusLoader V)
    (attr : String)
    (hs : h.state = HandleState.unloaded) (ha : attr ≠ "__bases__") :
    TRY_ZIPFILE_FIRST = false ∧
    (locateRoot env false h.name).2.head? = some ("corpora/" ++ h.name) ∧
    (∀ root, env.find ("corpora/" ++ h.name) = Except.ok root →
      locateRoot env false h.name = (Except.ok root, ["corpora/" ++ h.name])) ∧
    (∀ e1, env.find ("corpora/" ++ h.name) = Except.error e1 →
      e1.isLookupError = true →
      (locateRoot env false h.name).2 =
        ["corpora/" ++ h.name, "corpora/" ++ zipName h.name]) ∧
    (∀ e1 e2, env.find ("corpora/" ++ h.name) = Except.error e1 →
      e1.isLookupError = true →
      env.find ("corpora/" ++ zipName h.name) = Except.error e2 →
      e2.isLookupError = true →
      (h.getattr env false attr).1 = Except.error e1) := by
  refine ⟨rfl, locateRoot_primary_head env h.name, ?_, ?_, ?_⟩
  · intro root hfp
    simp [locateRoot, hfp]
  · intro e1 hfp hle1
    rcases hfa : env.find ("corpora/" ++ zipName h.name) with e2 | r2
    · by_cases hle2 : e2.isLookupError <;> simp [locateRoot, hfp, hle1, hfa, hle2]
    · simp [locateRoot, hfp, hle1, hfa]
  · intro e1 e2 hfp hle1 hfa hle2
    have hl : locateRoot env false h.name =
        (Except.error e1, ["corpora/" ++ h.name, "corpora/" ++ zipName h.name]) := by
      simp [locateRoot, hfp, hle1, hfa, hle2]
    rw [getattr_unloaded_locate_error hs ha hl]

/-- C3 witness: `probeHandle` under `probeEnv` (primary resolves) and under
`noneEnv` (both lookups fail, the primary's error surfaces). -/
theorem primary_first_policy_witness :
    probeHandle.state = HandleState.unloaded ∧ "items" ≠ "__bases__" ∧
    locateRoot probeEnv false probeHandle.name =
      (Except.ok "ROOT", ["corpora/sample-corpus"]) ∧
    (locateRoot noneEnv false probeHandle.name).2 =
      ["corpora/sample-corpus", "corpora/sample-corpus.zip/sample-corpus/"] ∧
    (probeHandle.getattr noneEnv false "items").1 =
      Except.error (PyErr.lookupError "corpora/sample-corpus") :=
  ⟨rfl, by decide, (primary_first_policy probeEnv probeHandle "items" rfl
      (by decide)).2.2.1 "ROOT" rfl,
    (primary_first_policy noneEnv probeHandle "items" rfl (by decide)).2.2.2.1
      (PyErr.lookupError "corpora/sample-corpus") rfl rfl,
    (primary_first_policy noneEnv probeHandle "items" rfl (by decide)).2.2.2.2
      (PyErr.lookupError "corpora/sample-corpus")
      (PyErr.lookupError "corpora/sample-corpus.zip/sample-corpus/") rfl rfl rfl rfl⟩

/-- C4: under the archive-first policy the only Locator call is the archive
candidate; when that lookup fails the failure is re-raised immediately,
unchanged, and the primary candidate is never attempted. -/
theorem zipfile_first_aborts_without_primary {V : Type} (env : Env V)
    (h : LazyCorpusLoader V) (attr : String) (e : PyErr)
    (hs : h.state = HandleState.unloaded) (ha : attr ≠ "__bases__")
    (harch : env.find ("corpora/" ++ zipName h.name) = Except.error e) :
    h.getattr env true attr =
      (Except.error e, h, ⟨["corpora/" ++ zipName h.name], []⟩) ∧
    ("corpora/" ++ h.name) ∉ (h.getattr env true attr).2.2.locatorCalls := by
  have hl : locateRoot env true h.name =
      (Except.error e, ["corpora/" ++ zipName h.name]) := by
    simp [locateRoot, harch]
  have hacc := getattr_unloaded_locate_error hs ha hl
  refine ⟨hacc, ?_⟩
  rw [hacc]
  intro hmem
  rcases List.mem_singleton.mp hmem with hEq
  exact zipName_ne h.name (string_append_left_cancel hEq).symm

/-- C4 witness: `probeHandle` under `probeEnv` with the archive-first flag:
the archive lookup fails and is re-raised with no primary attempt. -/
theorem zipfile_first_aborts_without_primary_witness :
    probeHandle.state = HandleState.unloaded ∧ "items" ≠ "__bases__" ∧
    probeEnv.find ("corpora/" ++ zipName probeHandle.name) =
      Except.error (PyErr.lookupError "corpora/sample-corpus.zip/sample-corpus/") ∧
    (probeHandle.getattr probeEnv true "items" =
        (Except.error (PyErr.lookupError "corpora/sample-corpus.zip/sample-corpus/"),
          probeHandle, ⟨["corpora/sample-corpus.zip/sample-corpus/"], []⟩) ∧
      ("corpora/sample-corpus") ∉ (probeHandle.getattr probeEnv true "items").2.2.locatorCalls) :=
  ⟨rfl, by decide, rfl,
    zipfile_first_aborts_without_primary probeEnv probeHandle "items"
      (PyErr.lookupError "corpora/sample-corpus.zip/sample-corpus/") rfl (by decide) rfl⟩

/-- The delegate `probeCls` builds on the archive root `"ZROOT"`. -/
def zipDelegate : Delegate Nat :=
  ⟨fun a => if a = "items" then some 8 else none⟩

/-- Characterisation of the protected-metadata identifiers: an identifier
is protected exactly when it is `"__bases__"` — the only name the
`__getattr__` guard short-circuits; every other name triggers a load. -/
theorem protected_iff_bases (attr : String) :
    ProtectedIdentifier attr ↔ attr = "__bases__" := by
  constructor
  · intro hp
    by_contra ha
    have h1 := hp Nat probeEnv false probeHandle rfl
    have hacc := @getattr_unloaded_ok Nat probeEnv false probeHandle attr "ROOT"
      ["corpora/sample-corpus"] probeDelegate rfl ha rfl rfl
    rw [hacc] at h1
    have hcon : (⟨["corpora/sample-corpus"], [("ROOT", [1, 2], [("k", 3)])]⟩ : Trace Nat) =
        Trace.empty := h1.2.2
    exact absurd hcon (by decide)
  · intro hEq
    subst hEq
    intro V env tz h hs
    exact ⟨⟨"__bases__", by simp [LazyCorpusLoader.getattr, hs]⟩,
      by simp [LazyCorpusLoader.getattr, hs],
      by simp [LazyCorpusLoader.getattr, hs]⟩

/-- C5 counterexample: no two distinct identifiers are both protected
metadata, so there are not exactly two reserved identifiers; for instance
`"__wrapped__"` — the companion name later versions of this module also
reserve — is not protected here: accessing it on an unloaded handle makes
one Constructor call. -/
theorem protected_identifiers_not_two :
    (¬ ∃ a b : String, a ≠ b ∧ ProtectedIdentifier a ∧ ProtectedIdentifier b) ∧
    ¬ ProtectedIdentifier "__wrapped__" ∧
    (probeHandle.getattr probeEnv false "__wrapped__").2.2.constructorCalls.length = 1 := by
  refine ⟨?_, ?_, rfl⟩
  · rintro ⟨a, b, hab, hpa, hpb⟩
    rw [protected_iff_bases] at hpa hpb
    exact hab (hpa.trans hpb.symm)
  · intro hp
    exact absurd ((protected_iff_bases "__wrapped__").mp hp) (by decide)

/-- C5 (amended): exactly ONE identifier is reserved as protected metadata,
`"__bases__"`: accessing it on any unloaded handle fails immediately with an
attribute lookup error, triggers no load, leaves the handle unchanged (so
arbitrarily many repetitions behave the same) and performs zero Locator and
zero Constructor calls — and no other identifier has this behaviour. -/
theorem protected_identifier_unique :
    ∀ attr : String, ProtectedIdentifier attr ↔ attr = "__bases__" :=
  protected_iff_bases

/-- C5 witness: `"__bases__"` is protected; concretely its access on the
unloaded probe handle raises the attribute error with an empty trace. -/
theorem protected_identifier_unique_witness :
    ProtectedIdentifier "__bases__" ∧
    (probeHandle.getattr probeEnv false "__bases__").1 =
      Except.error (PyErr.attributeError "__bases__") ∧
    (probeHandle.getattr probeEnv false "__bases__").2.1 = probeHandle ∧
    (probeHandle.getattr probeEnv false "__bases__").2.2 = Trace.empty :=
  ⟨(protected_identifier_unique "__bases__").mpr rfl, rfl, rfl, rfl⟩

/-- C6: on a successfully loaded handle, `unload()` swaps in a fresh
unloaded handle whose identifier, constructor reference, args and options
are identical to the originally stored ones (round-trip), calls no
collaborator itself, and the next capability access performs exactly one
additional Constructor call with those same parameters. -/
theorem unload_then_access_reconstructs {V : Type} (env : Env V) (tz : Bool)
    (h : LazyCorpusLoader V) (d0 : Delegate V) (attr root : String)
    (calls : List String) (d : Delegate V)
    (hs : h.state = HandleState.loaded d0) (ha : attr ≠ "__bases__")
    (hl : locateRoot env tz h.name = (Except.ok root, calls))
    (hb : h.readerCls.build root h.args h.kwargs = Except.ok d) :
    (h.unload).1.name = h.name ∧
    (h.unload).1.readerCls = h.readerCls ∧
    (h.unload).1.args = h.args ∧
    (h.unload).1.kwargs = h.kwargs ∧
    (h.unload).1.state = HandleState.unloaded ∧
    (h.unload).2 = Trace.empty ∧
    ((h.unload).1.getattr env tz attr).2.2.constructorCalls =
      [(root, h.args, h.kwargs)] ∧
    ((h.unload).1.getattr env tz attr).2.1.state = HandleState.loaded d := by
  have hu : h.unload =
      (⟨h.name, h.readerCls, h.args, h.kwargs, HandleState.unloaded⟩, Trace.empty) := by
    simp only [LazyCorpusLoader.unload, hs]
  rw [hu]
  have hacc := getattr_unloaded_ok
    (h := ⟨h.name, h.readerCls, h.args, h.kwargs, HandleState.unloaded⟩)
    rfl ha hl hb
  rw [hacc]
  exact ⟨rfl, rfl, rfl, rfl, rfl, rfl, rfl, rfl⟩

/-- C6 witness: load/unload/access round-trip on the probe handle. -/
theorem unload_then_access_reconstructs_witness :
    probeLoadedHandle.state = HandleState.loaded probeDelegate ∧
    "items" ≠ "__bases__" ∧
    locateRoot probeEnv false probeLoadedHandle.name =
      (Except.ok "ROOT", ["corpora/sample-corpus"]) ∧
    probeLoadedHandle.readerCls.build "ROOT" probeLoadedHandle.args
      probeLoadedHandle.kwargs = Except.ok probeDelegate ∧
    ((probeLoadedHandle.unload).1.name = probeLoadedHandle.name ∧
      (probeLoadedHandle.unload).1.readerCls = probeLoadedHandle.readerCls ∧
      (probeLoadedHandle.unload).1.args = probeLoadedHandle.args ∧
      (probeLoadedHandle.unload).1.kwargs = probeLoadedHandle.kwargs ∧
      (probeLoadedHandle.unload).1.state = HandleState.unloaded ∧
      (probeLoadedHandle.unload).2 = Trace.empty ∧
      ((probeLoadedHandle.unload).1.getattr probeEnv false "items").2.2.constructorCalls =
        [("ROOT", [1, 2], [("k", 3)])] ∧
      ((probeLoadedHandle.unload).1.getattr probeEnv false "items").2.1.state =
        HandleState.loaded probeDelegate) :=
  ⟨rfl, by decide, rfl, rfl,
    unload_then_access_reconstructs probeEnv false probeLoadedHandle probeDelegate
      "items" "ROOT" ["corpora/sample-corpus"] probeDelegate rfl (by decide) rfl rfl⟩

/-- C8: when a load fails — no candidate resolves, or the Constructor
raises — the collaborator's error value reaches the caller unmodified, the
handle comes back untouched (stored parameters unchanged, no delegate
retained), and the same handle remains retryable: under collaborators that
now cooperate the access constructs and loads the delegate. -/
theorem load_failure_propagates_and_retryable {V : Type} (env : Env V) (tz : Bool)
    (h : LazyCorpusLoader V) (attr : String)
    (hs : h.state = HandleState.unloaded) (ha : attr ≠ "__bases__") :
    (∀ e calls, locateRoot env tz h.name = (Except.error e, calls) →
      h.getattr env tz attr = (Except.error e, h, ⟨calls, []⟩)) ∧
    (∀ root calls e, locateRoot env tz h.name = (Except.ok root, calls) →
      h.readerCls.build root h.args h.kwargs = Except.error e →
      h.getattr env tz attr =
        (Except.error e, h, ⟨calls, [(root, h.args, h.kwargs)]⟩)) ∧
    (∀ (env2 : Env V) root calls d,
      locateRoot env2 tz h.name = (Except.ok root, calls) →
      h.readerCls.build root h.args h.kwargs = Except.ok d →
      (h.getattr env2 tz attr).1 = Delegate.getattr d attr ∧
      (h.getattr env2 tz attr).2.1.state = HandleState.loaded d) := by
  refine ⟨fun e calls hl => getattr_unloaded_locate_error hs ha hl,
    fun root calls e hl hb => getattr_unloaded_build_error hs ha hl hb,
    fun env2 root calls d hl hb => ?_⟩
  rw [getattr_unloaded_ok hs ha hl hb]
  exact ⟨rfl, rfl⟩

/-- C8 witness: `flakyHandle` fails by missing resource in `noneEnv`, fails
by constructor raise in `badRootEnv` — each time handing back the untouched
handle and the verbatim error — then loads successfully in `probeEnv`. -/
theorem load_failure_propagates_and_retryable_witness :
    flakyHandle.state = HandleState.unloaded ∧
    "items" ≠ "__bases__" ∧
    flakyHandle.getattr noneEnv false "items" =
      (Except.error (PyErr.lookupError "corpora/sample-corpus"), flakyHandle,
        ⟨["corpora/sample-corpus", "corpora/sample-corpus.zip/sample-corpus/"], []⟩) ∧
    flakyHandle.getattr badRootEnv false "items" =
      (Except.error (PyErr.otherError "construction failed"), flakyHandle,
        ⟨["corpora/sample-corpus"], [("BADROOT", [5], [])]⟩) ∧
    (flakyHandle.getattr probeEnv false "items").1 = Except.ok 1 :=
  ⟨rfl, by decide,
    (load_failure_propagates_and_retryable noneEnv false flakyHandle "items"
        rfl (by decide)).1
      (PyErr.lookupError "corpora/sample-corpus")
      ["corpora/sample-corpus", "corpora/sample-corpus.zip/sample-corpus/"] rfl,
    (load_failure_propagates_and_retryable badRootEnv false flakyHandle "items"
        rfl (by decide)).2.1
      "BADROOT" ["corpora/sample-corpus"] (PyErr.otherError "construction failed")
      rfl rfl,
    ((load_failure_propagates_and_retryable badRootEnv false flakyHandle "items"
        rfl (by decide)).2.2 probeEnv "ROOT" ["corpora/sample-corpus"]
      ⟨fun a => if a = "items" then some 1 else none⟩ rfl rfl).1⟩

/-- C9 counterexample: on the identifier `"abc/def"` the code nests the
ENTIRE identifier inside the container — the candidate is
`"abc.zip/abc/def/"` — whereas the claimed derivation, nesting only the
remaining path after the first segment, yields `"abc.zip/def"`; the two
disagree. -/
theorem archive_candidate_claim_counterexample :
    zipName "abc/def" = "abc.zip/abc/def/" ∧
    archiveCandidateClaim "abc/def" = "abc.zip/def" ∧
    zipName "abc/def" ≠ archiveCandidateClaim "abc/def" := by
  exact ⟨rfl, rfl, by decide⟩

/-- C9 (amended): the archive candidate is the identifier's first path
segment with the archive suffix `".zip/"` appended, followed by the ENTIRE
identifier (first segment included) and a trailing `"/"`; and under the
default primary-first policy, when the primary lookup fails with
`LookupError` and the archive lookup resolves, the handle loads from the
archive candidate's root with exactly one Constructor call on that root. -/
theorem archive_candidate_derivation_and_fallback {V : Type} (env : Env V)
    (h : LazyCorpusLoader V) (attr : String) (e1 : PyErr) (root : String)
    (d : Delegate V)
    (hs : h.state = HandleState.unloaded) (ha : attr ≠ "__bases__")
    (hfp : env.find ("corpora/" ++ h.name) = Except.error e1)
    (hle : e1.isLookupError = true)
    (hfa : env.find ("corpora/" ++ zipName h.name) = Except.ok root)
    (hb : h.readerCls.build root h.args h.kwargs = Except.ok d) :
    zipName h.name = firstSegment h.name ++ ".zip/" ++ h.name ++ "/" ∧
    h.getattr env false attr =
      (Delegate.getattr d attr, { h with state := HandleState.loaded d },
        ⟨["corpora/" ++ h.name, "corpora/" ++ zipName h.name],
          [(root, h.args, h.kwargs)]⟩) := by
  have hl : locateRoot env false h.name =
      (Except.ok root, ["corpora/" ++ h.name, "corpora/" ++ zipName h.name]) := by
    simp [locateRoot, hfp, hle, hfa]
  exact ⟨zipName_eq h.name, getattr_unloaded_ok hs ha hl hb⟩

/-- C9 witness: in `zipEnv` the primary candidate of `"sample-corpus"` is
missing and the archive candidate resolves to `"ZROOT"`, from which the
handle loads. -/
theorem archive_candidate_derivation_and_fallback_witness :
    probeHandle.state = HandleState.unloaded ∧
    "items" ≠ "__bases__" ∧
    zipEnv.find ("corpora/" ++ probeHandle.name) =
      Except.error (PyErr.lookupError "corpora/sample-corpus") ∧
    (PyErr.lookupError "corpora/sample-corpus").isLookupError = true ∧
    zipEnv.find ("corpora/" ++ zipName probeHandle.name) = Except.ok "ZROOT" ∧
    probeHandle.readerCls.build "ZROOT" probeHandle.args probeHandle.kwargs =
      Except.ok zipDelegate ∧
    (zipName probeHandle.name =
        firstSegment probeHandle.name ++ ".zip/" ++ probeHandle.name ++ "/" ∧
      probeHandle.getattr zipEnv false "items" =
        (Delegate.getattr zipDelegate "items",
          { probeHandle with state := HandleState.loaded zipDelegate },
          ⟨["corpora/sample-corpus", "corpora/sample-corpus.zip/sample-corpus/"],
            [("ZROOT", [1, 2], [("k", 3)])]⟩)) :=
  ⟨rfl, by decide, rfl, rfl, rfl, rfl,
    archive_candidate_derivation_and_fallback zipEnv probeHandle "items"
      (PyErr.lookupError "corpora/sample-corpus") "ZROOT" zipDelegate
      rfl (by decide) rfl rfl rfl rfl⟩

end LazyCorpus
